import Mathlib

/-!
Verification development for the chess game-session server
(internal/game/service.go, internal/websockets/manager.go, client.go).

The Go code is shallowly embedded: Go maps become functions into Option,
per-session in-place mutation becomes explicit state passing (error paths
return the state unchanged, as the Go code mutates only after its checks),
and the external collaborators (the corentings/chess rules library and the
Stockfish engine adapter) enter as explicit parameters, since the server
only consumes them through a narrow query interface.
-/

namespace ChessSrv

/-- chess.Color as used by the service: the two playable sides. -/
inductive Color where
  | white
  | black
deriving DecidableEq

/-- The opposite color; service.go:161-164 computes it by branching. -/
def Color.other : Color → Color
  | Color.white => Color.black
  | Color.black => Color.white

/-- service.go:15-21 GameType constants. -/
inductive GameType where
  | humanVsHuman
  | humanVsAI
  | aiVsAI
deriving DecidableEq

/-- service.go:46-53 GameStatus constants. -/
inductive GameStatus where
  | waiting
  | inProgress
  | completed
  | abandoned
deriving DecidableEq

/-- service.go:38-44 Player (Rating is never read by the modelled code). -/
structure Player where
  id : String
  name : String
  isAI : Bool
  color : Color
deriving DecidableEq

/-- A chess.Game value, modelled by the queries the service makes of it:
    FEN encoding, side to move, the legal moves in enumeration order given
    by their UCI string encodings, and the check/terminal flags the service
    reads after a move (Position().Status(), Method(), Outcome()). -/
structure ChessGame where
  fen : String
  turn : Color
  validMoves : List String
  inCheck : Bool
  isCheckmate : Bool
  isStalemate : Bool
  hasOutcome : Bool
deriving DecidableEq

/-- The rules-library transition: Game.Move(m, nil) either yields the updated
    game or reports an error (service.go:224, 334). -/
structure Rules where
  next : ChessGame → String → Option ChessGame

/-- service.go:23-36 GameState. Players is the Go map from color to Player;
    AIEngine is an opaque subprocess handle (its only observable use in the
    modelled claims is identity and closing). -/
structure GameState where
  id : String
  type : GameType
  chessGame : ChessGame
  players : Color → Option Player
  currentTurn : Color
  status : GameStatus
  aiEngine : Option Nat
  aiDifficulty : Int
  moveHistory : List String

/-- service.go:411-419 MoveResult. -/
structure MoveResult where
  move : String
  fen : String
  turn : Color
  isCheck : Bool
  isCheckmate : Bool
  isStalemate : Bool
  gameStatus : GameStatus
deriving DecidableEq

/-- The error values the service returns (fmt.Errorf strings, by case). -/
inductive GameError where
  | notFound
  | noPlayerAssigned
  | notYourTurn
  | illegalMove
  | moveApplyFailed
  | colorTaken
  | notAITurn
  | engineUnavailable
  | aiEngineError
  | invalidUCIFormat
  | invalidAIMove
  | noHumanPlayer
deriving DecidableEq

/-- Go map assignment players[c] = p. -/
def setPlayer (ps : Color → Option Player) (c : Color) (p : Player) :
    Color → Option Player :=
  fun c2 => if c2 = c then some p else ps c2

/-- len(game.Players): the number of occupied color slots. -/
def playerSlotCount (ps : Color → Option Player) : Nat :=
  (if (ps Color.white).isSome then 1 else 0) +
    (if (ps Color.black).isSome then 1 else 0)

/-- The id-to-session table of the GameService (service.go:55-59). -/
abbrev Store := String → Option GameState

/-- Go map assignment gs.games[id] = g. -/
def setStore (store : Store) (gameID : String) (g : GameState) : Store :=
  fun k => if k = gameID then some g else store k

/-- Go map deletion delete(gs.games, id). -/
def eraseStore (store : Store) (gameID : String) : Store :=
  fun k => if k = gameID then none else store k

/-- The fresh session value built at service.go:82-92: empty roster, empty
    history, Waiting status, turn synced with the rules library. -/
def freshSession (gameID : String) (gameType : GameType) (difficulty : Int)
    (engine : Option Nat) (cg0 : ChessGame) : GameState :=
  { id := gameID
    type := gameType
    chessGame := cg0
    players := fun _ => none
    currentTurn := cg0.turn
    status := GameStatus.waiting
    aiEngine := engine
    aiDifficulty := difficulty
    moveHistory := [] }

/-- Observable store-level effects of CreateGame, in program order. -/
inductive StoreAction where
  | closeEngine (handle : Nat)
  | deleteEntry (gameID : String)
  | installEntry (gameID : String)
deriving DecidableEq

/-- service.go:68-123 CreateGame. The subprocess spawn engine.NewStockfish()
    is an external effect passed in as spawnResult (none models a failed
    spawn, which only logs a warning); cg0 models chess.NewGame(). Returns
    the new session, the updated store, and the effect trace in program
    order: close the prior engine if present, delete the prior entry, then
    install the new session. CreateGame never returns an error. -/
def createGame (store : Store) (gameID : String) (gameType : GameType)
    (difficulty : Int) (spawnResult : Option Nat) (cg0 : ChessGame) :
    GameState × Store × List StoreAction :=
  let cleanup : Store × List StoreAction :=
    match store gameID with
    | some existingGame =>
        (eraseStore store gameID,
         (match existingGame.aiEngine with
          | some h => [StoreAction.closeEngine h]
          | none => []) ++ [StoreAction.deleteEntry gameID])
    | none => (store, [])
  let engine : Option Nat :=
    if gameType = GameType.humanVsAI ∨ gameType = GameType.aiVsAI then spawnResult
    else none
  let game := freshSession gameID gameType difficulty engine cg0
  (game, setStore cleanup.1 gameID game,
    cleanup.2 ++ [StoreAction.installEntry gameID])

/-- The roster after service.go:150-173: seat the joining human player on
    the requested color and, for a HumanVsAI session, auto-seat the
    synthetic AI player on the opposite color. -/
def joinedPlayers (game : GameState) (gameID playerID playerName : String)
    (color : Color) : Color → Option Player :=
  let ps1 := setPlayer game.players color
    { id := playerID, name := playerName, isAI := false, color := color }
  if game.type = GameType.humanVsAI then
    setPlayer ps1 color.other
      { id := "ai_" ++ gameID
        name := "Stockfish (Level " ++ toString game.aiDifficulty ++ ")"
        isAI := true
        color := color.other }
  else ps1

/-- The per-session part of service.go:133-182 JoinGame, applied after the
    store lookup: reject an occupied color slot; otherwise seat the players
    per joinedPlayers and start the game once the roster has two entries or
    the session is HumanVsAI (service.go:176-179). -/
def joinGameSession (game : GameState) (gameID playerID playerName : String)
    (color : Color) : Except GameError Unit × GameState :=
  match game.players color with
  | some _ => (Except.error GameError.colorTaken, game)
  | none =>
    let ps2 := joinedPlayers game gameID playerID playerName color
    let status1 :=
      if 2 ≤ playerSlotCount ps2 ∨ game.type = GameType.humanVsAI then
        GameStatus.inProgress
      else game.status
    (Except.ok (), { game with players := ps2, status := status1 })

/-- service.go:133-182 JoinGame: NotFound without a session, then the
    session-level operation (the Go session is mutated through its pointer,
    modelled by writing the updated session back under the same id). -/
def joinGame (store : Store) (gameID playerID playerName : String)
    (color : Color) : Except GameError Unit × Store :=
  match store gameID with
  | none => (Except.error GameError.notFound, store)
  | some game =>
    let r := joinGameSession game gameID playerID playerName color
    (r.1, setStore store gameID r.2)

/-- service.go:211-213 move-token matching: exact equality with the legal
    move, or the submitted token equals the first four bytes of the legal
    move (tolerating promotion-suffixed legal encodings). -/
def moveTokenMatches (moveStr mv : String) : Bool :=
  mv == moveStr || (decide (4 ≤ mv.length) && mv.take 4 == moveStr)

/-- service.go:184-257 MakeMove, per-session part. Error paths return the
    session unchanged, since the Go code mutates the session only after the
    turn check, the legal-move match, and the rules-library application all
    succeed. Note service.go:203 skips the identity check entirely when the
    side-to-move occupant is an AI player. -/
def makeMove (R : Rules) (game : GameState) (playerID moveStr : String) :
    Except GameError MoveResult × GameState :=
  match game.players game.chessGame.turn with
  | none => (Except.error GameError.noPlayerAssigned, game)
  | some currentPlayer =>
    if currentPlayer.isAI = false ∧ currentPlayer.id ≠ playerID then
      (Except.error GameError.notYourTurn, game)
    else
      match game.chessGame.validMoves.find? (moveTokenMatches moveStr) with
      | none => (Except.error GameError.illegalMove, game)
      | some mv =>
        match R.next game.chessGame mv with
        | none => (Except.error GameError.moveApplyFailed, game)
        | some cg1 =>
          let history := game.moveHistory ++ [moveStr]
          if cg1.isCheckmate || cg1.isStalemate || cg1.hasOutcome then
            (Except.ok
              { move := moveStr
                fen := cg1.fen
                turn := cg1.turn
                isCheck := cg1.inCheck
                isCheckmate := cg1.isCheckmate
                isStalemate := cg1.isStalemate
                gameStatus := GameStatus.completed },
             { game with
                chessGame := cg1
                moveHistory := history
                status := GameStatus.completed })
          else
            (Except.ok
              { move := moveStr
                fen := cg1.fen
                turn := cg1.turn
                isCheck := cg1.inCheck
                isCheckmate := cg1.isCheckmate
                isStalemate := cg1.isStalemate
                gameStatus := game.status },
             { game with
                chessGame := cg1
                moveHistory := history
                currentTurn := cg1.turn })

/-- Store-level MakeMove: the GetGame lookup of service.go:185-188 followed
    by the session operation. -/
def serviceMakeMove (R : Rules) (store : Store)
    (gameID playerID moveStr : String) : Except GameError MoveResult × Store :=
  match store gameID with
  | none => (Except.error GameError.notFound, store)
  | some game =>
    let r := makeMove R game playerID moveStr
    (r.1, setStore store gameID r.2)

/-- The Engine Adapter query used at service.go:286: GetBestMove(fen, depth,
    timeLimitMs) returns the UCI best-move token or an engine error. The
    adapter (internal/engine) is an external subprocess wrapper, so it is a
    parameter of GetAIMove. -/
abbrev EngineQuery := String → Int → Int → Except Unit String

/-- service.go:283 time budget in milliseconds. -/
def aiTimeLimitMs (difficulty : Int) : Int := 500 + difficulty * 150

/-- service.go:284 search depth (Go integer division truncates toward
    zero). -/
def aiDepth (difficulty : Int) : Int := 1 + difficulty.tdiv 4

/-- service.go:309-327 matching of the engine UCI token against a legal
    move: exact equality, or - for promotion-suffixed engine tokens - equal
    first four bytes. -/
def aiMoveMatches (uciMove promotion mv : String) : Bool :=
  mv == uciMove ||
    (promotion != "" && decide (4 ≤ mv.length) && mv.take 4 == uciMove.take 4)

/-- service.go:259-369 GetAIMove. Error paths return the session unchanged;
    the subprocess answer enters through the engine parameter, and is
    re-validated against the legal-move list before application. -/
def getAIMove (R : Rules) (game : GameState) (engine : EngineQuery) :
    Except GameError MoveResult × GameState :=
  match game.players game.chessGame.turn with
  | none => (Except.error GameError.notAITurn, game)
  | some currentPlayer =>
    if currentPlayer.isAI = false then (Except.error GameError.notAITurn, game)
    else
      match game.aiEngine with
      | none => (Except.error GameError.engineUnavailable, game)
      | some _ =>
        match engine game.chessGame.fen (aiDepth game.aiDifficulty)
            (aiTimeLimitMs game.aiDifficulty) with
        | Except.error _ => (Except.error GameError.aiEngineError, game)
        | Except.ok uciMove =>
          if uciMove.length < 4 then
            (Except.error GameError.invalidUCIFormat, game)
          else
            match game.chessGame.validMoves.find?
                (aiMoveMatches uciMove (uciMove.drop 4)) with
            | none => (Except.error GameError.invalidAIMove, game)
            | some mv =>
              match R.next game.chessGame mv with
              | none => (Except.error GameError.moveApplyFailed, game)
              | some cg1 =>
                let history := game.moveHistory ++ [uciMove]
                if cg1.isCheckmate || cg1.isStalemate || cg1.hasOutcome then
                  (Except.ok
                    { move := uciMove
                      fen := cg1.fen
                      turn := cg1.turn
                      isCheck := cg1.inCheck
                      isCheckmate := cg1.isCheckmate
                      isStalemate := cg1.isStalemate
                      gameStatus := GameStatus.completed },
                   { game with
                      chessGame := cg1
                      moveHistory := history
                      status := GameStatus.completed })
                else
                  (Except.ok
                    { move := uciMove
                      fen := cg1.fen
                      turn := cg1.turn
                      isCheck := cg1.inCheck
                      isCheckmate := cg1.isCheckmate
                      isStalemate := cg1.isStalemate
                      gameStatus := game.status },
                   { game with
                      chessGame := cg1
                      moveHistory := history
                      currentTurn := cg1.turn })

/-- The websocket envelope of the events constants file of
    internal/websockets: a type tag and a JSON payload, the payload kept
    abstract as its raw text. -/
structure Event where
  type : String
  payload : String
deriving DecidableEq

namespace EventType

/-- The event-type wire values of the events constants file of
    internal/websockets (NewAIGame and the other const strings). -/
def NewAIGame : String := "new_ai_game"

/-- Wire value of the NewGame event type. -/
def NewGame : String := "new_game"

/-- Wire value of the Move event type. -/
def Move : String := "move"

/-- Wire value of the GameState event type. -/
def GameState : String := "game_state"

/-- Wire value of the AIMove event type. -/
def AIMove : String := "ai_move"

/-- Wire value of the LoadPGN event type. -/
def LoadPGN : String := "load_pgn"

/-- Wire value of the GameOver event type. -/
def GameOver : String := "game_over"

end EventType

/-- client.go:13-18 ClientType. -/
inductive ClientType where
  | player
  | spectator
deriving DecidableEq

/-- The per-connection identity of client.go:20-30 (transport, manager and
    local game cache are not part of the routing data). -/
structure WSClient where
  gameId : String
  clientId : String
  userName : String
  clientType : ClientType
deriving DecidableEq

/-- A handler of the dispatch table (manager.go:73-79): it may fail with an
    error message. -/
abbrev EventHandler := Event → WSClient → Except String Unit

/-- The Go handlers map of the Manager. -/
abbrev Handlers := String → Option EventHandler

/-- manager.go:81-93 routeEvent: look the event type up in the dispatch
    table; a registered handler runs and its error is returned as is; a
    missing entry is the routing failure. -/
def routeEvent (handlers : Handlers) (e : Event) (c : WSClient) :
    Except String Unit :=
  match handlers e.type with
  | some handler => handler e c
  | none => Except.error "Event ERROR: Event or handler unknown"

/-- What one blocking receive of the read pump produced: a transport read
    error, a frame that fails JSON unmarshalling, or a decoded envelope. -/
inductive Inbound where
  | readFailure
  | malformed
  | envelope (e : Event)

/-- Whether one read-pump iteration leaves the loop. -/
inductive PumpStep where
  | exitLoop
  | continueLoop
deriving DecidableEq

/-- One iteration of client.go:57-79 readMessages: a read error breaks the
    loop, an unmarshalling error breaks the loop, and a routeEvent error is
    only logged (client.go:76-78) - the loop continues whatever routing
    returned. -/
def readPumpStep (handlers : Handlers) (c : WSClient) (msg : Inbound) :
    PumpStep :=
  match msg with
  | Inbound.readFailure => PumpStep.exitLoop
  | Inbound.malformed => PumpStep.exitLoop
  | Inbound.envelope e =>
    match routeEvent handlers e c with
    | Except.error _ => PumpStep.continueLoop
    | Except.ok _ => PumpStep.continueLoop

/-- client.go:51-80 readMessages over a finite prefix of inbound frames:
    true when the pump exited its loop within the prefix, at which point the
    deferred removeClient (deregister and close, manager.go:237-245) runs. -/
def readMessagesExits (handlers : Handlers) (c : WSClient) :
    List Inbound → Bool
  | [] => false
  | msg :: rest =>
    match readPumpStep handlers c msg with
    | PumpStep.exitLoop => true
    | PumpStep.continueLoop => readMessagesExits handlers c rest

/-- manager.go:73-79 setupHandlers: the dispatch table registers handlers
    under the NewAIGame, Move, AIMove and GameOver event types of the
    events constants file of internal/websockets. -/
def setupHandlerTable (newAIGameH moveH aiMoveH gameOverH : EventHandler) :
    Handlers :=
  fun t =>
    if t = EventType.NewAIGame then some newAIGameH
    else if t = EventType.Move then some moveH
    else if t = EventType.AIMove then some aiMoveH
    else if t = EventType.GameOver then some gameOverH
    else none

/-- A registered connection as broadcastToGame sees it: its game id and its
    bounded egress queue (channel capacity 16 at client.go:42), modelled as
    the queued events plus the capacity bound. -/
structure Conn where
  gameId : String
  clientId : String
  egress : List Event
  egressCap : Nat
deriving DecidableEq

/-- manager.go:247-271 broadcastToGame: iterate the registered connections,
    filter by game id, and perform a non-blocking enqueue (select with a
    default branch): append the event when the bounded queue has room,
    otherwise skip that connection. -/
def broadcastToGame (clients : List Conn) (gameId : String) (event : Event) :
    List Conn :=
  clients.map (fun client =>
    if client.gameId = gameId then
      if client.egress.length < client.egressCap then
        { client with egress := client.egress ++ [event] }
      else client
    else client)

/-- The parsed move payload of manager.go:122-126 (From, To, Move). -/
structure MoveData where
  fromSq : String
  toSq : String
  move : String
deriving DecidableEq

/-- manager.go:155-162: scan the roster for the first non-AI player and take
    its id, the empty string when there is none. Go map iteration order is
    unspecified; the model scans white then black. -/
def humanPlayerIdOf (players : Color → Option Player) : String :=
  match players Color.white with
  | some p =>
    if p.isAI = false then p.id
    else
      match players Color.black with
      | some q => if q.isAI = false then q.id else ""
      | none => ""
  | none =>
    match players Color.black with
    | some q => if q.isAI = false then q.id else ""
    | none => ""

/-- manager.go:120-196 MoveHandler, game-service path: build the move token
    from the payload, look the game up under the client game id, pick the
    human player id from the roster - the submitting client identity is
    never consulted - and call MakeMove with it. Broadcasting and the async
    AI trigger are outside the returned value. -/
def moveHandler (R : Rules) (store : Store) (c : WSClient) (d : MoveData) :
    Except GameError MoveResult × Store :=
  let moveStr := if d.move = "" then d.fromSq ++ d.toSq else d.move
  match store c.gameId with
  | none => (Except.error GameError.notFound, store)
  | some gameState =>
    let humanPlayerId := humanPlayerIdOf gameState.players
    if humanPlayerId = "" then (Except.error GameError.noHumanPlayer, store)
    else serviceMakeMove R store c.gameId humanPlayerId moveStr

/-- One session-level operation of the Game Session Store together with its
    external inputs: a join, a human move submission, or an AI move request
    with the engine answer. -/
inductive SessionStep (R : Rules) : GameState → GameState → Prop where
  | join (g : GameState) (gameID playerID playerName : String) (color : Color) :
      SessionStep R g (joinGameSession g gameID playerID playerName color).2
  | move (g : GameState) (playerID moveStr : String) :
      SessionStep R g (makeMove R g playerID moveStr).2
  | aiMove (g : GameState) (engine : EngineQuery) :
      SessionStep R g (getAIMove R g engine).2

/-- Session states reachable from a freshly created session whose chess
    state is cg0 (chess.NewGame() in CreateGame), under any sequence of
    session operations. -/
inductive ReachableSession (R : Rules) (cg0 : ChessGame) : GameState → Prop where
  | init (gameID : String) (gameType : GameType) (difficulty : Int)
      (engine : Option Nat) :
      ReachableSession R cg0 (freshSession gameID gameType difficulty engine cg0)
  | step (g g2 : GameState) : ReachableSession R cg0 g → SessionStep R g g2 →
      ReachableSession R cg0 g2

/-- Rules-library guarantee: applying a move hands the turn to the other
    side. -/
def RulesAlternate (R : Rules) : Prop :=
  ∀ cg mv cg2, R.next cg mv = some cg2 → cg2.turn = cg.turn.other

/-- Rules-library guarantee about the standard initial position: no single
    move from it ends the game. -/
def NoImmediateEnd (R : Rules) (cg0 : ChessGame) : Prop :=
  ∀ mv cg2, R.next cg0 mv = some cg2 →
    cg2.isCheckmate = false ∧ cg2.isStalemate = false ∧ cg2.hasOutcome = false

/-- Position of a status along Waiting, InProgress, then the two final
    stages. -/
def statusRank : GameStatus → Nat
  | GameStatus.waiting => 0
  | GameStatus.inProgress => 1
  | GameStatus.completed => 2
  | GameStatus.abandoned => 2

/-- The session invariant carrying the status argument: an untouched session
    still holds the initial chess state; once a move was made, the side that
    just moved is seated; and a started session has both colors seated. -/
def SessionInv (cg0 : ChessGame) (g : GameState) : Prop :=
  (g.moveHistory = [] → g.chessGame = cg0) ∧
  (g.moveHistory ≠ [] → (g.players g.chessGame.turn.other).isSome) ∧
  (g.status ≠ GameStatus.waiting →
    (g.players Color.white).isSome ∧ (g.players Color.black).isSome)

/-- A concrete start position for the executable instances below: white to
    move, one legal move enumerated. -/
def demoStartCG : ChessGame :=
  { fen := "rnbqkbnr/pppppppp/8/8/8/8/PPPPPPPP/RNBQKBNR w KQkq - 0 1"
    turn := Color.white
    validMoves := ["e2e4"]
    inCheck := false
    isCheckmate := false
    isStalemate := false
    hasOutcome := false }

/-- The position the demo rules produce after e2e4. -/
def demoNextCG : ChessGame :=
  { fen := "rnbqkbnr/pppppppp/8/8/4P3/8/PPPP1PPP/RNBQKBNR b KQkq e3 0 1"
    turn := Color.black
    validMoves := ["e7e5"]
    inCheck := false
    isCheckmate := false
    isStalemate := false
    hasOutcome := false }

/-- Concrete rules instance: only e2e4 from the start position applies. -/
def demoRules : Rules :=
  ⟨fun cg mv =>
    if cg = demoStartCG ∧ mv = "e2e4" then some demoNextCG else none⟩

/-- Rules instance under which no move ever applies. -/
def demoEmptyRules : Rules := ⟨fun _ _ => none⟩

/-- The synthetic AI player seated on white in the demo AI session. -/
def demoAIPlayer : Player :=
  { id := "ai_g1", name := "Stockfish (Level 5)", isAI := true
    color := Color.white }

/-- The human player seated on black in the demo AI session. -/
def demoAlice : Player :=
  { id := "alice", name := "Alice", isAI := false, color := Color.black }

/-- The human player seated on white in the demo human session. -/
def demoBob : Player :=
  { id := "bob", name := "Bob", isAI := false, color := Color.white }

/-- A HumanVsAI session whose side to move (white) is the AI player. -/
def demoAIGame : GameState :=
  { id := "g1"
    type := GameType.humanVsAI
    chessGame := demoStartCG
    players := fun c =>
      match c with
      | Color.white => some demoAIPlayer
      | Color.black => some demoAlice
    currentTurn := Color.white
    status := GameStatus.inProgress
    aiEngine := some 7
    aiDifficulty := 5
    moveHistory := [] }

/-- A HumanVsHuman session whose side to move (white) is the human bob. -/
def demoHumanGame : GameState :=
  { id := "g2"
    type := GameType.humanVsHuman
    chessGame := demoStartCG
    players := fun c =>
      match c with
      | Color.white => some demoBob
      | Color.black => some demoAlice
    currentTurn := Color.white
    status := GameStatus.inProgress
    aiEngine := none
    aiDifficulty := 0
    moveHistory := [] }

/-- A two-session store holding the demo games. -/
def demoStore : Store :=
  fun k =>
    if k = "g1" then some demoAIGame
    else if k = "g2" then some demoHumanGame
    else none

/-- An engine that always answers e2e4. -/
def demoGoodEngine : EngineQuery := fun _ _ _ => Except.ok "e2e4"

/-- An engine that answers a token matching no legal move of the demo
    position (promotion-suffixed, wrong squares). -/
def demoBadEngine : EngineQuery := fun _ _ _ => Except.ok "a7a89"

/-- An engine that only answers when asked with a 1250ms budget, the budget
    of difficulty 5. -/
def demoMoodyEngine : EngineQuery :=
  fun _ _ t => if t = 1250 then Except.ok "e2e4" else Except.error ()

/-- A handler that accepts every event. -/
def demoStubHandler : EventHandler := fun _ _ => Except.ok ()

/-- The demo dispatch table with the four registered keys. -/
def demoHandlers : Handlers :=
  setupHandlerTable demoStubHandler demoStubHandler demoStubHandler
    demoStubHandler

/-- A player client of game g1. -/
def demoClient : WSClient :=
  { gameId := "g1", clientId := "c1", userName := "Player"
    clientType := ClientType.player }

/-- A spectator client of the same game g1. -/
def demoSpectator : WSClient :=
  { gameId := "g1", clientId := "c2", userName := "Watcher"
    clientType := ClientType.spectator }

/-- A well-formed envelope whose type has no registered handler. -/
def demoBogusEvent : Event := { type := "bogus_event", payload := "" }

/-- A parsed move payload submitting e2e4. -/
def demoMoveData : MoveData := { fromSq := "e2", toSq := "e4", move := "e2e4" }

lemma Color.other_ne (c : Color) : c.other ≠ c := by
  cases c <;> simp [Color.other]

lemma Color.other_other (c : Color) : c.other.other = c := by
  cases c <;> rfl

lemma color_cover (c c2 : Color) : c2 = c ∨ c2 = c.other := by
  cases c <;> cases c2 <;> simp [Color.other]

lemma setPlayer_same (ps : Color → Option Player) (c : Color) (p : Player) :
    setPlayer ps c p c = some p := by
  simp [setPlayer]

lemma setPlayer_ne {c2 c : Color} (h : c2 ≠ c) (ps : Color → Option Player)
    (p : Player) : setPlayer ps c p c2 = ps c2 := by
  simp [setPlayer, h]

lemma setPlayer_preserves_isSome {ps : Color → Option Player} {c2 : Color}
    (hc2 : (ps c2).isSome) (c : Color) (p : Player) :
    ((setPlayer ps c p) c2).isSome := by
  unfold setPlayer
  split <;> simp_all

lemma slotCount_two {ps : Color → Option Player} (h2 : 2 ≤ playerSlotCount ps) :
    (ps Color.white).isSome ∧ (ps Color.black).isSome := by
  unfold playerSlotCount at h2
  cases hw : (ps Color.white).isSome <;> cases hb : (ps Color.black).isSome <;>
    simp [hw, hb] at h2 ⊢

lemma statusRank_le_two (s : GameStatus) : statusRank s ≤ 2 := by
  cases s <;> simp [statusRank]

lemma joinedPlayers_preserves_isSome (g : GameState)
    (gid pid pname : String) (color : Color) {c2 : Color}
    (hc2 : (g.players c2).isSome) :
    ((joinedPlayers g gid pid pname color) c2).isSome := by
  unfold joinedPlayers
  split
  · exact setPlayer_preserves_isSome (setPlayer_preserves_isSome hc2 _ _) _ _
  · exact setPlayer_preserves_isSome hc2 _ _

lemma joinedPlayers_filled_of_humanVsAI (g : GameState)
    (gid pid pname : String) (color : Color)
    (htype : g.type = GameType.humanVsAI) :
    ((joinedPlayers g gid pid pname color) Color.white).isSome ∧
      ((joinedPlayers g gid pid pname color) Color.black).isSome := by
  have hmain : ∀ c2 : Color, ((joinedPlayers g gid pid pname color) c2).isSome := by
    intro c2
    simp only [joinedPlayers, if_pos htype]
    rcases color_cover color c2 with hc | hc
    · rw [hc, setPlayer_ne (Ne.symm (Color.other_ne color)), setPlayer_same]
      rfl
    · rw [hc, setPlayer_same]
      rfl
  exact ⟨hmain Color.white, hmain Color.black⟩

lemma inv_fresh (cg0 : ChessGame) (gid : String) (t : GameType) (d : Int)
    (e : Option Nat) : SessionInv cg0 (freshSession gid t d e cg0) :=
  ⟨fun _ => rfl, fun h => absurd rfl h, fun h => absurd rfl h⟩

lemma inv_join (cg0 : ChessGame) (g : GameState)
    (gid pid pname : String) (color : Color) (hinv : SessionInv cg0 g) :
    SessionInv cg0 (joinGameSession g gid pid pname color).2 := by
  obtain ⟨h1, h2, h3⟩ := hinv
  unfold joinGameSession
  cases hocc : g.players color with
  | some p => exact ⟨h1, h2, h3⟩
  | none =>
    refine ⟨fun hh => h1 hh, fun hh => ?_, fun hs => ?_⟩
    · exact joinedPlayers_preserves_isSome g gid pid pname color (h2 hh)
    · by_cases hcond : 2 ≤ playerSlotCount (joinedPlayers g gid pid pname color) ∨
          g.type = GameType.humanVsAI
      · rcases hcond with hcnt | htype
        · exact slotCount_two hcnt
        · exact joinedPlayers_filled_of_humanVsAI g gid pid pname color htype
      · simp only [if_neg hcond] at hs
        obtain ⟨hw, hb⟩ := h3 hs
        exact ⟨joinedPlayers_preserves_isSome g gid pid pname color hw,
          joinedPlayers_preserves_isSome g gid pid pname color hb⟩

lemma seats_of_turn_seated {ps : Color → Option Player} {t : Color}
    (hp : (ps t).isSome) (hother : (ps t.other).isSome) :
    (ps Color.white).isSome ∧ (ps Color.black).isSome := by
  constructor
  · rcases color_cover t Color.white with hc | hc
    · rw [hc]; exact hp
    · rw [hc]; exact hother
  · rcases color_cover t Color.black with hc | hc
    · rw [hc]; exact hp
    · rw [hc]; exact hother

lemma inv_after_apply_ended (R : Rules) (cg0 : ChessGame)
    (hAlt : RulesAlternate R) (hEnd : NoImmediateEnd R cg0) (g : GameState)
    (tok mv : String) (cg1 : ChessGame)
    (hp : (g.players g.chessGame.turn).isSome)
    (hn : R.next g.chessGame mv = some cg1)
    (hend : (cg1.isCheckmate || cg1.isStalemate || cg1.hasOutcome) = true)
    (hinv : SessionInv cg0 g) :
    SessionInv cg0
      { g with chessGame := cg1, moveHistory := g.moveHistory ++ [tok],
               status := GameStatus.completed } := by
  obtain ⟨h1, h2, h3⟩ := hinv
  have hseat : (g.players cg1.turn.other).isSome := by
    rw [hAlt _ _ _ hn, Color.other_other]
    exact hp
  refine ⟨fun hh => absurd hh (by simp), fun _ => hseat, fun _ => ?_⟩
  cases hh : g.moveHistory with
  | nil =>
    exfalso
    have hcg := h1 hh
    rw [hcg] at hn
    obtain ⟨e1, e2, e3⟩ := hEnd mv cg1 hn
    rw [e1, e2, e3] at hend
    simp at hend
  | cons a as =>
    exact seats_of_turn_seated hp (h2 (by simp [hh]))

lemma inv_after_apply_progress (R : Rules) (cg0 : ChessGame)
    (hAlt : RulesAlternate R) (g : GameState)
    (tok mv : String) (cg1 : ChessGame)
    (hp : (g.players g.chessGame.turn).isSome)
    (hn : R.next g.chessGame mv = some cg1)
    (hinv : SessionInv cg0 g) :
    SessionInv cg0
      { g with chessGame := cg1, moveHistory := g.moveHistory ++ [tok],
               currentTurn := cg1.turn } := by
  obtain ⟨h1, h2, h3⟩ := hinv
  have hseat : (g.players cg1.turn.other).isSome := by
    rw [hAlt _ _ _ hn, Color.other_other]
    exact hp
  exact ⟨fun hh => absurd hh (by simp), fun _ => hseat, fun hs => h3 hs⟩

lemma inv_move (R : Rules) (cg0 : ChessGame) (hAlt : RulesAlternate R)
    (hEnd : NoImmediateEnd R cg0) (g : GameState) (pid tok : String)
    (hinv : SessionInv cg0 g) : SessionInv cg0 (makeMove R g pid tok).2 := by
  unfold makeMove
  cases hp : g.players g.chessGame.turn with
  | none => exact hinv
  | some cp =>
    dsimp only
    by_cases hid : cp.isAI = false ∧ cp.id ≠ pid
    · rw [if_pos hid]
      exact hinv
    · rw [if_neg hid]
      cases hf : g.chessGame.validMoves.find? (moveTokenMatches tok) with
      | none => exact hinv
      | some mv =>
        dsimp only
        cases hn : R.next g.chessGame mv with
        | none => exact hinv
        | some cg1 =>
          dsimp only
          have hps : (g.players g.chessGame.turn).isSome := by rw [hp]; rfl
          by_cases hend : (cg1.isCheckmate || cg1.isStalemate || cg1.hasOutcome) = true
          · rw [if_pos hend]
            exact inv_after_apply_ended R cg0 hAlt hEnd g tok mv cg1 hps hn hend hinv
          · rw [if_neg hend]
            exact inv_after_apply_progress R cg0 hAlt g tok mv cg1 hps hn hinv

lemma inv_ai (R : Rules) (cg0 : ChessGame) (hAlt : RulesAlternate R)
    (hEnd : NoImmediateEnd R cg0) (g : GameState) (engine : EngineQuery)
    (hinv : SessionInv cg0 g) : SessionInv cg0 (getAIMove R g engine).2 := by
  unfold getAIMove
  cases hp : g.players g.chessGame.turn with
  | none => exact hinv
  | some cp =>
    dsimp only
    by_cases hai : cp.isAI = false
    · rw [if_pos hai]
      exact hinv
    · rw [if_neg hai]
      cases heng : g.aiEngine with
      | none => exact hinv
      | some eh =>
        cases hq : engine g.chessGame.fen (aiDepth g.aiDifficulty)
            (aiTimeLimitMs g.aiDifficulty) with
        | error e => exact hinv
        | ok uci =>
          dsimp only
          by_cases hlen : uci.length < 4
          · rw [if_pos hlen]
            exact hinv
          · rw [if_neg hlen]
            cases hf : g.chessGame.validMoves.find?
                (aiMoveMatches uci (uci.drop 4)) with
            | none => exact hinv
            | some mv =>
              dsimp only
              cases hn : R.next g.chessGame mv with
              | none => exact hinv
              | some cg1 =>
                dsimp only
                have hps : (g.players g.chessGame.turn).isSome := by rw [hp]; rfl
                by_cases hend :
                    (cg1.isCheckmate || cg1.isStalemate || cg1.hasOutcome) = true
                · rw [if_pos hend]
                  exact inv_after_apply_ended R cg0 hAlt hEnd g uci mv cg1 hps hn
                    hend hinv
                · rw [if_neg hend]
                  exact inv_after_apply_progress R cg0 hAlt g uci mv cg1 hps hn hinv

lemma reachable_inv (R : Rules) (cg0 : ChessGame) (hAlt : RulesAlternate R)
    (hEnd : NoImmediateEnd R cg0) (g : GameState)
    (hreach : ReachableSession R cg0 g) : SessionInv cg0 g := by
  induction hreach with
  | init gameID gameType difficulty engine =>
    exact inv_fresh cg0 gameID gameType difficulty engine
  | step g g2 hr hs ih =>
    cases hs with
    | join gameID playerID playerName color =>
      exact inv_join cg0 g gameID playerID playerName color ih
    | move playerID moveStr => exact inv_move R cg0 hAlt hEnd g playerID moveStr ih
    | aiMove engine => exact inv_ai R cg0 hAlt hEnd g engine ih

/-- C7: on every reachable session state, the session status only moves
    forward along Waiting, InProgress, then Completed or Abandoned: no
    JoinGame, MakeMove or GetAIMove step lowers the status rank. The two
    rules-library hypotheses record that applied moves alternate the side to
    move and that no single move from the initial position ends the game. -/
theorem session_status_monotone (R : Rules) (cg0 : ChessGame)
    (hAlt : RulesAlternate R) (hEnd : NoImmediateEnd R cg0)
    (g g2 : GameState) (hreach : ReachableSession R cg0 g)
    (hstep : SessionStep R g g2) :
    statusRank g.status ≤ statusRank g2.status := by
  have hinv := reachable_inv R cg0 hAlt hEnd g hreach
  cases hstep with
  | join gameID playerID playerName color =>
    unfold joinGameSession
    cases hocc : g.players color with
    | some p => exact le_refl _
    | none =>
      dsimp only
      by_cases hcond : 2 ≤ playerSlotCount
          (joinedPlayers g gameID playerID playerName color) ∨
          g.type = GameType.humanVsAI
      · rw [if_pos hcond]
        by_cases hw : g.status = GameStatus.waiting
        · rw [hw]
          exact Nat.zero_le _
        · exfalso
          obtain ⟨hwt, hbk⟩ := hinv.2.2 hw
          cases color with
          | white =>
            rw [hocc] at hwt
            simp at hwt
          | black =>
            rw [hocc] at hbk
            simp at hbk
      · rw [if_neg hcond]
  | move playerID moveStr =>
    unfold makeMove
    cases hp : g.players g.chessGame.turn with
    | none => exact le_refl _
    | some cp =>
      dsimp only
      by_cases hid : cp.isAI = false ∧ cp.id ≠ playerID
      · rw [if_pos hid]
      · rw [if_neg hid]
        cases hf : g.chessGame.validMoves.find? (moveTokenMatches moveStr) with
        | none => exact le_refl _
        | some mv =>
          dsimp only
          cases hn : R.next g.chessGame mv with
          | none => exact le_refl _
          | some cg1 =>
            dsimp only
            by_cases hend :
                (cg1.isCheckmate || cg1.isStalemate || cg1.hasOutcome) = true
            · rw [if_pos hend]
              exact statusRank_le_two g.status
            · rw [if_neg hend]
  | aiMove engine =>
    unfold getAIMove
    cases hp : g.players g.chessGame.turn with
    | none => exact le_refl _
    | some cp =>
      dsimp only
      by_cases hai : cp.isAI = false
      · rw [if_pos hai]
      · rw [if_neg hai]
        cases heng : g.aiEngine with
        | none => exact le_refl _
        | some eh =>
          cases hq : engine g.chessGame.fen (aiDepth g.aiDifficulty)
              (aiTimeLimitMs g.aiDifficulty) with
          | error e => exact le_refl _
          | ok uci =>
            dsimp only
            by_cases hlen : uci.length < 4
            · rw [if_pos hlen]
            · rw [if_neg hlen]
              cases hf : g.chessGame.validMoves.find?
                  (aiMoveMatches uci (uci.drop 4)) with
              | none => exact le_refl _
              | some mv =>
                dsimp only
                cases hn : R.next g.chessGame mv with
                | none => exact le_refl _
                | some cg1 =>
                  dsimp only
                  by_cases hend :
                      (cg1.isCheckmate || cg1.isStalemate || cg1.hasOutcome) = true
                  · rw [if_pos hend]
                    exact statusRank_le_two g.status
                  · rw [if_neg hend]

/-- C1 (amended): MakeMove fails NotYourTurn with the session unchanged
    exactly when the side-to-move occupant is a human (non-AI) player whose
    id differs from the submitted playerId; when the occupant is an AI
    player, the identity check of service.go:203 is bypassed and no
    submitted playerId is rejected with NotYourTurn. -/
theorem makeMove_notYourTurn_human_only (R : Rules) (g : GameState)
    (playerID moveStr : String) (p : Player)
    (hp : g.players g.chessGame.turn = some p) :
    (p.isAI = false → p.id ≠ playerID →
      makeMove R g playerID moveStr = (Except.error GameError.notYourTurn, g)) ∧
    (p.isAI = true →
      (makeMove R g playerID moveStr).1 ≠ Except.error GameError.notYourTurn) := by
  constructor
  · intro hai hid
    unfold makeMove
    rw [hp]
    dsimp only
    rw [if_pos ⟨hai, hid⟩]
  · intro hai
    unfold makeMove
    rw [hp]
    dsimp only
    rw [if_neg (by simp [hai])]
    cases hf : g.chessGame.validMoves.find? (moveTokenMatches moveStr) with
    | none => simp
    | some mv =>
      dsimp only
      cases hn : R.next g.chessGame mv with
      | none => simp
      | some cg1 =>
        dsimp only
        by_cases hend : (cg1.isCheckmate || cg1.isStalemate || cg1.hasOutcome) = true
        · rw [if_pos hend]
          simp
        · rw [if_neg hend]
          simp

/-- C1 witness: in the demo human session, a mismatched playerId submitted
    for the human side to move fails NotYourTurn with the session
    unchanged. -/
theorem makeMove_notYourTurn_human_only_witness :
    demoHumanGame.players demoHumanGame.chessGame.turn = some demoBob ∧
    demoBob.isAI = false ∧ demoBob.id ≠ "mallory" ∧
    makeMove demoRules demoHumanGame "mallory" "e2e4" =
      (Except.error GameError.notYourTurn, demoHumanGame) :=
  ⟨rfl, rfl, by decide,
    (makeMove_notYourTurn_human_only demoRules demoHumanGame "mallory" "e2e4"
      demoBob rfl).1 rfl (by decide)⟩

/-- C1 counterexample: in the demo HumanVsAI session the side to move is
    the AI player, yet MakeMove with a foreign human playerId is not
    rejected NotYourTurn - the move is applied and the history grows, so an
    AI-assigned color does not reject human tokens. -/
theorem makeMove_ai_turn_accepts_any_player :
    (makeMove demoRules demoAIGame "intruder" "e2e4").1 ≠
      Except.error GameError.notYourTurn ∧
    (makeMove demoRules demoAIGame "intruder" "e2e4").2.moveHistory = ["e2e4"] ∧
    demoAIGame.moveHistory = [] ∧
    demoAIGame.players demoAIGame.chessGame.turn = some demoAIPlayer ∧
    demoAIPlayer.isAI = true := by
  have hok : (makeMove demoRules demoAIGame "intruder" "e2e4").1 =
      Except.ok
        { move := "e2e4", fen := demoNextCG.fen, turn := Color.black
          isCheck := false, isCheckmate := false, isStalemate := false
          gameStatus := GameStatus.inProgress } := rfl
  refine ⟨fun hcon => Except.noConfusion (hok.symm.trans hcon), rfl, rfl, rfl, rfl⟩

/-- C2 (amended): an envelope whose type has no registered handler is a
    routing failure returned by routeEvent, but the read pump only logs it
    and continues its loop; only a transport read error or an unmarshalling
    failure is terminal for the connection. -/
theorem routeEvent_unknown_not_terminal (handlers : Handlers) (c : WSClient)
    (e : Event) (h : handlers e.type = none) :
    routeEvent handlers e c =
      Except.error "Event ERROR: Event or handler unknown" ∧
    readPumpStep handlers c (Inbound.envelope e) = PumpStep.continueLoop ∧
    readPumpStep handlers c Inbound.malformed = PumpStep.exitLoop ∧
    readPumpStep handlers c Inbound.readFailure = PumpStep.exitLoop := by
  have hroute : routeEvent handlers e c =
      Except.error "Event ERROR: Event or handler unknown" := by
    unfold routeEvent
    rw [h]
  refine ⟨hroute, ?_, rfl, rfl⟩
  unfold readPumpStep
  dsimp only
  rw [hroute]

/-- C2 witness: the demo table has no entry for the bogus event type, and
    the amended behaviour follows from the theorem at that input. -/
theorem routeEvent_unknown_not_terminal_witness :
    demoHandlers demoBogusEvent.type = none ∧
    (routeEvent demoHandlers demoBogusEvent demoClient =
      Except.error "Event ERROR: Event or handler unknown" ∧
    readPumpStep demoHandlers demoClient (Inbound.envelope demoBogusEvent) =
      PumpStep.continueLoop ∧
    readPumpStep demoHandlers demoClient Inbound.malformed =
      PumpStep.exitLoop ∧
    readPumpStep demoHandlers demoClient Inbound.readFailure =
      PumpStep.exitLoop) :=
  ⟨rfl, routeEvent_unknown_not_terminal demoHandlers demoClient demoBogusEvent rfl⟩

/-- C2 counterexample: a well-formed envelope of unregistered type is a
    routing failure, yet the read-pump step continues rather than exits, and
    a pump run over that single frame never exits the loop, so the
    connection is not deregistered or closed. -/
theorem unknown_event_pump_continues :
    routeEvent demoHandlers demoBogusEvent demoClient =
      Except.error "Event ERROR: Event or handler unknown" ∧
    readPumpStep demoHandlers demoClient (Inbound.envelope demoBogusEvent) =
      PumpStep.continueLoop ∧
    readPumpStep demoHandlers demoClient (Inbound.envelope demoBogusEvent) ≠
      PumpStep.exitLoop ∧
    readMessagesExits demoHandlers demoClient
      [Inbound.envelope demoBogusEvent] = false :=
  ⟨rfl, rfl, by decide, rfl⟩

/-- C5: once the side-to-move check passes, MakeMove selects the first legal
    move matching the token exactly or by its first four bytes; with no
    match it fails IllegalMove with the session, hence its FEN, unchanged,
    and a selected move is a member of the legal-move list satisfying the
    matcher, the chess state changing only by applying it. -/
theorem makeMove_token_matching (R : Rules) (g : GameState)
    (playerID moveStr : String) (p : Player)
    (hp : g.players g.chessGame.turn = some p)
    (hpass : ¬(p.isAI = false ∧ p.id ≠ playerID)) :
    (g.chessGame.validMoves.find? (moveTokenMatches moveStr) = none →
      makeMove R g playerID moveStr = (Except.error GameError.illegalMove, g) ∧
      (makeMove R g playerID moveStr).2.chessGame.fen = g.chessGame.fen) ∧
    (∀ mv, g.chessGame.validMoves.find? (moveTokenMatches moveStr) = some mv →
      mv ∈ g.chessGame.validMoves ∧ moveTokenMatches moveStr mv = true ∧
      ((makeMove R g playerID moveStr).2.chessGame = g.chessGame ∨
        R.next g.chessGame mv = some (makeMove R g playerID moveStr).2.chessGame)) := by
  constructor
  · intro hf
    unfold makeMove
    rw [hp]
    dsimp only
    rw [if_neg hpass, hf]
    exact ⟨rfl, rfl⟩
  · intro mv hf
    refine ⟨List.mem_of_find?_eq_some hf, List.find?_some hf, ?_⟩
    unfold makeMove
    rw [hp]
    dsimp only
    rw [if_neg hpass, hf]
    dsimp only
    cases hn : R.next g.chessGame mv with
    | none => exact Or.inl rfl
    | some cg1 =>
      dsimp only
      by_cases hend : (cg1.isCheckmate || cg1.isStalemate || cg1.hasOutcome) = true
      · rw [if_pos hend]
        exact Or.inr rfl
      · rw [if_neg hend]
        exact Or.inr rfl

/-- C5 witness: the spec scenario - the token z9z9 matches no legal move of
    the demo position and MakeMove fails IllegalMove with the FEN
    unchanged. -/
theorem makeMove_token_matching_witness :
    demoHumanGame.players demoHumanGame.chessGame.turn = some demoBob ∧
    ¬(demoBob.isAI = false ∧ demoBob.id ≠ "bob") ∧
    demoHumanGame.chessGame.validMoves.find? (moveTokenMatches "z9z9") = none ∧
    (makeMove demoRules demoHumanGame "bob" "z9z9" =
      (Except.error GameError.illegalMove, demoHumanGame) ∧
    (makeMove demoRules demoHumanGame "bob" "z9z9").2.chessGame.fen =
      demoHumanGame.chessGame.fen) :=
  ⟨rfl, by decide, by decide,
    (makeMove_token_matching demoRules demoHumanGame "bob" "z9z9" demoBob rfl
      (by decide)).1 (by decide)⟩

/-- C6: JoinGame fails NotFound when no session exists under the id, and
    ColorTaken when the requested color slot is occupied; in both failure
    cases the returned store, hence the roster, equals the input store. -/
theorem joinGame_notFound_colorTaken (store : Store)
    (gameID playerID playerName : String) (color : Color) :
    (store gameID = none →
      joinGame store gameID playerID playerName color =
        (Except.error GameError.notFound, store)) ∧
    (∀ g p, store gameID = some g → g.players color = some p →
      joinGame store gameID playerID playerName color =
        (Except.error GameError.colorTaken, store)) := by
  constructor
  · intro h
    unfold joinGame
    rw [h]
  · intro g p hg hpl
    unfold joinGame
    rw [hg]
    dsimp only
    unfold joinGameSession
    rw [hpl]
    dsimp only
    congr 1
    funext k
    unfold setStore
    by_cases hk : k = gameID
    · rw [if_pos hk, hk, hg]
    · rw [if_neg hk]

/-- C6 witness: a missing id fails NotFound and an occupied white slot fails
    ColorTaken, both with the demo store returned unchanged. -/
theorem joinGame_notFound_colorTaken_witness :
    demoStore "nope" = none ∧
    demoStore "g1" = some demoAIGame ∧
    demoAIGame.players Color.white = some demoAIPlayer ∧
    joinGame demoStore "nope" "alice" "Alice" Color.white =
      (Except.error GameError.notFound, demoStore) ∧
    joinGame demoStore "g1" "carol" "Carol" Color.white =
      (Except.error GameError.colorTaken, demoStore) :=
  ⟨rfl, rfl, rfl,
    (joinGame_notFound_colorTaken demoStore "nope" "alice" "Alice"
      Color.white).1 rfl,
    (joinGame_notFound_colorTaken demoStore "g1" "carol" "Carol"
      Color.white).2 demoAIGame demoAIPlayer rfl rfl⟩

/-- C3: GetAIMove never applies a token outside the legal-move set: either
    the call returns the session unchanged, or the new chess state arises by
    applying a member of the enumerated legal-move list; and when the engine
    answer matches no legal move, the call fails and the session (position,
    history, status) is unchanged. -/
theorem getAIMove_legal_only (R : Rules) (g : GameState)
    (engine : EngineQuery) :
    ((getAIMove R g engine).2 = g ∨
      ∃ mv, mv ∈ g.chessGame.validMoves ∧
        R.next g.chessGame mv = some (getAIMove R g engine).2.chessGame) ∧
    (∀ uci, engine g.chessGame.fen (aiDepth g.aiDifficulty)
        (aiTimeLimitMs g.aiDifficulty) = Except.ok uci →
      g.chessGame.validMoves.find? (aiMoveMatches uci (uci.drop 4)) = none →
      (∃ err, (getAIMove R g engine).1 = Except.error err) ∧
        (getAIMove R g engine).2 = g) := by
  unfold getAIMove
  cases hp : g.players g.chessGame.turn with
  | none =>
    exact ⟨Or.inl rfl, fun uci h1 h2 => ⟨⟨GameError.notAITurn, rfl⟩, rfl⟩⟩
  | some cp =>
    dsimp only
    by_cases hai : cp.isAI = false
    · rw [if_pos hai]
      exact ⟨Or.inl rfl, fun uci h1 h2 => ⟨⟨GameError.notAITurn, rfl⟩, rfl⟩⟩
    · rw [if_neg hai]
      cases heng : g.aiEngine with
      | none =>
        exact ⟨Or.inl rfl,
          fun uci h1 h2 => ⟨⟨GameError.engineUnavailable, rfl⟩, rfl⟩⟩
      | some eh =>
        dsimp only
        cases hq : engine g.chessGame.fen (aiDepth g.aiDifficulty)
            (aiTimeLimitMs g.aiDifficulty) with
        | error er =>
          exact ⟨Or.inl rfl,
            fun uci h1 h2 => ⟨⟨GameError.aiEngineError, rfl⟩, rfl⟩⟩
        | ok uci =>
          dsimp only
          by_cases hlen : uci.length < 4
          · rw [if_pos hlen]
            exact ⟨Or.inl rfl,
              fun u h1 h2 => ⟨⟨GameError.invalidUCIFormat, rfl⟩, rfl⟩⟩
          · rw [if_neg hlen]
            cases hf : g.chessGame.validMoves.find?
                (aiMoveMatches uci (uci.drop 4)) with
            | none =>
              exact ⟨Or.inl rfl,
                fun u h1 h2 => ⟨⟨GameError.invalidAIMove, rfl⟩, rfl⟩⟩
            | some mv =>
              dsimp only
              have huniq : ∀ u, Except.ok (ε := Unit) uci = Except.ok u →
                  g.chessGame.validMoves.find?
                    (aiMoveMatches u (u.drop 4)) = none → False := by
                intro u h1 h2
                injection h1 with h1
                rw [← h1] at h2
                rw [h2] at hf
                exact Option.noConfusion hf
              cases hn : R.next g.chessGame mv with
              | none =>
                exact ⟨Or.inl rfl, fun u h1 h2 => (huniq u h1 h2).elim⟩
              | some cg1 =>
                dsimp only
                by_cases hend :
                    (cg1.isCheckmate || cg1.isStalemate || cg1.hasOutcome) = true
                · rw [if_pos hend]
                  exact ⟨Or.inr ⟨mv, List.mem_of_find?_eq_some hf, hn⟩,
                    fun u h1 h2 => (huniq u h1 h2).elim⟩
                · rw [if_neg hend]
                  exact ⟨Or.inr ⟨mv, List.mem_of_find?_eq_some hf, hn⟩,
                    fun u h1 h2 => (huniq u h1 h2).elim⟩

/-- C3 witness: the demo engine answers a token matching no legal move; the
    call fails and the demo AI session is returned unchanged. -/
theorem getAIMove_legal_only_witness :
    demoBadEngine demoAIGame.chessGame.fen (aiDepth demoAIGame.aiDifficulty)
      (aiTimeLimitMs demoAIGame.aiDifficulty) = Except.ok "a7a89" ∧
    demoAIGame.chessGame.validMoves.find?
      (aiMoveMatches "a7a89" ("a7a89".drop 4)) = none ∧
    ((∃ err, (getAIMove demoRules demoAIGame demoBadEngine).1 =
        Except.error err) ∧
      (getAIMove demoRules demoAIGame demoBadEngine).2 = demoAIGame) :=
  ⟨rfl, by decide,
    (getAIMove_legal_only demoRules demoAIGame demoBadEngine).2 "a7a89" rfl
      (by decide)⟩

/-- C4: CreateGame on an id that already holds a session closes the prior
    session Engine Adapter and deletes the prior entry before installing the
    new session (the effect trace in program order), never errors, maps the
    id to the new fresh session afterwards, and leaves every other store
    entry untouched. -/
theorem createGame_replaces_existing (store : Store) (gameID : String)
    (gameType : GameType) (difficulty : Int) (spawnResult : Option Nat)
    (cg0 : ChessGame) (existing : GameState) (h : Nat)
    (hex : store gameID = some existing)
    (heng : existing.aiEngine = some h) :
    (createGame store gameID gameType difficulty spawnResult cg0).2.2 =
      [StoreAction.closeEngine h, StoreAction.deleteEntry gameID,
        StoreAction.installEntry gameID] ∧
    (createGame store gameID gameType difficulty spawnResult cg0).2.1 gameID =
      some (createGame store gameID gameType difficulty spawnResult cg0).1 ∧
    (∀ k, k ≠ gameID →
      (createGame store gameID gameType difficulty spawnResult cg0).2.1 k =
        store k) ∧
    (createGame store gameID gameType difficulty spawnResult cg0).1 =
      freshSession gameID gameType difficulty
        (if gameType = GameType.humanVsAI ∨ gameType = GameType.aiVsAI then
          spawnResult else none) cg0 := by
  unfold createGame
  rw [hex]
  dsimp only
  rw [heng]
  refine ⟨rfl, ?_, ?_, rfl⟩
  · unfold setStore
    rw [if_pos rfl]
  · intro k hk
    unfold setStore eraseStore
    rw [if_neg hk, if_neg hk]

/-- C4 witness: recreating g1 over the demo AI session (engine handle 7)
    yields the close-delete-install trace and the fresh session under g1. -/
theorem createGame_replaces_existing_witness :
    demoStore "g1" = some demoAIGame ∧ demoAIGame.aiEngine = some 7 ∧
    ((createGame demoStore "g1" GameType.humanVsAI 3 (some 9)
        demoStartCG).2.2 =
      [StoreAction.closeEngine 7, StoreAction.deleteEntry "g1",
        StoreAction.installEntry "g1"] ∧
    (createGame demoStore "g1" GameType.humanVsAI 3 (some 9)
        demoStartCG).2.1 "g1" =
      some (createGame demoStore "g1" GameType.humanVsAI 3 (some 9)
        demoStartCG).1 ∧
    (∀ k, k ≠ "g1" →
      (createGame demoStore "g1" GameType.humanVsAI 3 (some 9)
        demoStartCG).2.1 k = demoStore k) ∧
    (createGame demoStore "g1" GameType.humanVsAI 3 (some 9)
        demoStartCG).1 =
      freshSession "g1" GameType.humanVsAI 3
        (if GameType.humanVsAI = GameType.humanVsAI ∨
            GameType.humanVsAI = GameType.aiVsAI then
          some 9 else none) demoStartCG) :=
  ⟨rfl, rfl,
    createGame_replaces_existing demoStore "g1" GameType.humanVsAI 3 (some 9)
      demoStartCG demoAIGame 7 rfl rfl⟩

/-- C8: Broadcast enqueues the event exactly on the matching connections
    with queue capacity left: pointwise over the registry, a connection of
    another game is untouched, a matching connection with room gets the
    event appended to its egress queue, and a matching connection with a
    full queue is skipped unchanged - independently of the other
    connections. -/
theorem broadcastToGame_pointwise (clients : List Conn) (gameId : String)
    (event : Event) :
    List.Forall₂ (fun c c2 =>
      (c.gameId = gameId → c.egress.length < c.egressCap →
        c2 = { c with egress := c.egress ++ [event] }) ∧
      (c.gameId = gameId → ¬ c.egress.length < c.egressCap → c2 = c) ∧
      (c.gameId ≠ gameId → c2 = c))
      clients (broadcastToGame clients gameId event) := by
  induction clients with
  | nil => exact List.Forall₂.nil
  | cons c rest ih =>
    refine List.Forall₂.cons ?_ ih
    refine ⟨fun h1 h2 => ?_, fun h1 h2 => ?_, fun h1 => ?_⟩
    · dsimp only
      rw [if_pos h1, if_pos h2]
    · dsimp only
      rw [if_pos h1, if_neg h2]
    · dsimp only
      rw [if_neg h1]

/-- C9: GetAIMove consults the engine with the time budget
    500 + difficulty * 150 milliseconds: two engines agreeing at that budget
    produce identical GetAIMove results, and the budget formula evaluates to
    650ms at difficulty 1 and 3500ms at difficulty 20. -/
theorem getAIMove_time_budget (R : Rules) (g : GameState)
    (e1 e2 : EngineQuery)
    (h : ∀ fen d, e1 fen d (aiTimeLimitMs g.aiDifficulty) =
      e2 fen d (aiTimeLimitMs g.aiDifficulty)) :
    getAIMove R g e1 = getAIMove R g e2 ∧
    aiTimeLimitMs g.aiDifficulty = 500 + g.aiDifficulty * 150 ∧
    aiTimeLimitMs 1 = 650 ∧ aiTimeLimitMs 20 = 3500 := by
  refine ⟨?_, rfl, by norm_num [aiTimeLimitMs], by norm_num [aiTimeLimitMs]⟩
  unfold getAIMove
  rw [h g.chessGame.fen (aiDepth g.aiDifficulty)]

/-- C9 witness: at difficulty 5 the budget is 1250ms; an engine that only
    answers when asked with a 1250ms budget behaves like the uniform engine,
    so the theorem applies with the hypothesis discharged by rfl. -/
theorem getAIMove_time_budget_witness :
    getAIMove demoRules demoAIGame demoGoodEngine =
      getAIMove demoRules demoAIGame demoMoodyEngine ∧
    aiTimeLimitMs demoAIGame.aiDifficulty =
      500 + demoAIGame.aiDifficulty * 150 ∧
    aiTimeLimitMs 1 = 650 ∧ aiTimeLimitMs 20 = 3500 :=
  getAIMove_time_budget demoRules demoAIGame demoGoodEngine demoMoodyEngine
    (fun _ _ => rfl)

/-- C10: MoveHandler ignores the submitting client identity: two clients of
    the same game - whatever their client ids, user names or player or
    spectator roles - produce the identical result and game-state change for
    the same store and move payload, so any connected client can submit the
    move on behalf of the human player picked from the roster. -/
theorem moveHandler_ignores_client (R : Rules) (store : Store)
    (c1 c2 : WSClient) (d : MoveData) (hgame : c1.gameId = c2.gameId) :
    moveHandler R store c1 d = moveHandler R store c2 d := by
  unfold moveHandler
  rw [hgame]

/-- C10 witness: the player client and the spectator client of game g1
    produce identical MoveHandler outcomes on the demo store. -/
theorem moveHandler_ignores_client_witness :
    demoClient.gameId = demoSpectator.gameId ∧
    moveHandler demoRules demoStore demoClient demoMoveData =
      moveHandler demoRules demoStore demoSpectator demoMoveData :=
  ⟨rfl, moveHandler_ignores_client demoRules demoStore demoClient
    demoSpectator demoMoveData rfl⟩

/-- C7 witness: under the empty demo rules (alternation and no immediate
    end hold vacuously), a join step from a fresh reachable session does not
    lower the status rank. -/
theorem session_status_monotone_witness :
    RulesAlternate demoEmptyRules ∧
    NoImmediateEnd demoEmptyRules demoStartCG ∧
    ReachableSession demoEmptyRules demoStartCG
      (freshSession "g1" GameType.humanVsHuman 0 none demoStartCG) ∧
    SessionStep demoEmptyRules
      (freshSession "g1" GameType.humanVsHuman 0 none demoStartCG)
      (joinGameSession
        (freshSession "g1" GameType.humanVsHuman 0 none demoStartCG)
        "g1" "alice" "Alice" Color.white).2 ∧
    statusRank
        (freshSession "g1" GameType.humanVsHuman 0 none demoStartCG).status ≤
      statusRank
        (joinGameSession
          (freshSession "g1" GameType.humanVsHuman 0 none demoStartCG)
          "g1" "alice" "Alice" Color.white).2.status := by
  have hAlt : RulesAlternate demoEmptyRules := by
    intro cg mv cg2 hcon
    exact Option.noConfusion hcon
  have hEnd : NoImmediateEnd demoEmptyRules demoStartCG := by
    intro mv cg2 hcon
    exact Option.noConfusion hcon
  have hreach : ReachableSession demoEmptyRules demoStartCG
      (freshSession "g1" GameType.humanVsHuman 0 none demoStartCG) :=
    ReachableSession.init "g1" GameType.humanVsHuman 0 none
  have hstep : SessionStep demoEmptyRules
      (freshSession "g1" GameType.humanVsHuman 0 none demoStartCG)
      (joinGameSession
        (freshSession "g1" GameType.humanVsHuman 0 none demoStartCG)
        "g1" "alice" "Alice" Color.white).2 :=
    SessionStep.join _ "g1" "alice" "Alice" Color.white
  exact ⟨hAlt, hEnd, hreach, hstep,
    session_status_monotone demoEmptyRules demoStartCG hAlt hEnd _ _
      hreach hstep⟩

end ChessSrv
